import Mathlib

/-!
Verification of the AnkiWeb sync-key exchange and setup operations of
anki-desktop-docker (src/scripts/get_anki_synckey.py and
src/scripts/setup_anki.py), shallowly embedded in Lean 4.

External libraries (python-zstandard, json.loads, requests) are modelled as
an explicit environment of functions on byte sequences; the control flow of
the repository code (status check, capped single-shot decompression,
streaming fallback on ZstdError, JSON parse, key lookup, exception routing)
is translated directly from the source.
-/

namespace AnkiAuth

/-- JSON values as produced by Python json.loads, restricted to the shapes
the exchange manipulates (integers stand in for JSON numbers). -/
inductive JVal : Type where
  | null : JVal
  | bool : Bool → JVal
  | num : Int → JVal
  | str : String → JVal
  | arr : List JVal → JVal
  | obj : List (String × JVal) → JVal

/-- Hexadecimal digit character (lowercase), as in Python json escaping. -/
def hexDigit (n : Nat) : Char :=
  if n < 10 then Char.ofNat (48 + n) else Char.ofNat (87 + n)

/-- Four-digit lowercase hex rendering of a code unit, for \u escapes. -/
def hex4 (n : Nat) : String :=
  String.mk [hexDigit (n / 4096 % 16), hexDigit (n / 256 % 16), hexDigit (n / 16 % 16), hexDigit (n % 16)]

/-- Escaping of a single character exactly as Python json.dumps with the
default ensure_ascii=True performs it: quote and backslash escaped, the
short escapes for control characters, \uXXXX for other controls and for all
non-ASCII characters, surrogate pairs above the basic plane. -/
def escChar (c : Char) : String :=
  if c = Char.ofNat 34 then "\\\""
  else if c = Char.ofNat 92 then "\\\\"
  else if c = Char.ofNat 10 then "\\n"
  else if c = Char.ofNat 9 then "\\t"
  else if c = Char.ofNat 13 then "\\r"
  else if c = Char.ofNat 8 then "\\b"
  else if c = Char.ofNat 12 then "\\f"
  else if c.toNat < 32 then "\\u" ++ hex4 c.toNat
  else if c.toNat < 127 then String.mk [c]
  else if c.toNat ≤ 65535 then "\\u" ++ hex4 c.toNat
  else
    "\\u" ++ hex4 (55296 + (c.toNat - 65536) / 1024) ++ "\\u" ++ hex4 (56320 + (c.toNat - 65536) % 1024)

/-- JSON string literal rendering (Python json.dumps on a str). -/
def dumpsStr (s : String) : String :=
  "\"" ++ String.join (s.toList.map escChar) ++ "\""

mutual

/-- Model of Python json.dumps with default arguments: item separator
is comma-space, key separator is colon-space, ensure_ascii escaping. -/
def jsonDumps : JVal → String
  | .null => "null"
  | .bool b => cond b "true" "false"
  | .num n => toString n
  | .str s => dumpsStr s
  | .arr xs => "[" ++ jsonDumpsArr xs ++ "]"
  | .obj fs => "\x7b" ++ jsonDumpsObj fs ++ "\x7d"

/-- Comma-separated rendering of a JSON array body. -/
def jsonDumpsArr : List JVal → String
  | [] => ""
  | [x] => jsonDumps x
  | x :: y :: rest => jsonDumps x ++ ", " ++ jsonDumpsArr (y :: rest)

/-- Comma-separated rendering of a JSON object body. -/
def jsonDumpsObj : List (String × JVal) → String
  | [] => ""
  | [(k, v)] => dumpsStr k ++ ": " ++ jsonDumps v
  | (k, v) :: y :: rest => dumpsStr k ++ ": " ++ jsonDumps v ++ ", " ++ jsonDumpsObj (y :: rest)

end

/-- Byte sequences (Python bytes), as lists of naturals. -/
abbrev Bytes : Type := List Nat

/-- UTF-8 encoding of a string, as in str.encode in Python. -/
def utf8Encode (s : String) : Bytes :=
  s.toUTF8.toList.map (fun b => b.toNat)

/-- Python truthiness of a JSON value (bool(x) for values coming out of
json.loads): None, False, 0, empty string, empty list, empty dict are
falsy, everything else truthy. -/
def pyTruthy : JVal → Bool
  | .null => false
  | .bool b => b
  | .num n => decide (n ≠ 0)
  | .str s => decide (s ≠ "")
  | .arr xs => !xs.isEmpty
  | .obj fs => !fs.isEmpty

/-- Substring test: Python string containment (needle in haystack). -/
def pyStrContains (s pat : String) : Bool :=
  decide ((s.splitOn pat).length ≥ 2)

/-- Python membership test (k in data) on a json.loads value, for a string
k. On a dict it tests the keys, on a list it tests the elements (string
equality only -- Python == between a str and another type is False), on a
str it is the substring test; on int, bool, None it raises TypeError,
modelled as an error result. -/
def pyContains (data : JVal) (k : String) : Except Unit Bool :=
  match data with
  | .obj fs => .ok (fs.any (fun p => decide (p.1 = k)))
  | .arr xs => .ok (xs.any (fun v => match v with | .str s => decide (s = k) | _ => false))
  | .str s => .ok (pyStrContains s k)
  | _ => .error ()

/-- Python subscript data[k] for a string k: dict lookup on a dict (KeyError
when absent), TypeError on every other json.loads value, both modelled as
an error result. -/
def pyIndex (data : JVal) (k : String) : Except Unit JVal :=
  match data with
  | .obj fs =>
    match fs.find? (fun p => decide (p.1 = k)) with
    | some p => .ok p.2
    | none => .error ()
  | _ => .error ()

/-- Python sliceability of a json.loads value: sync_key[:4] succeeds on
strings and lists and raises TypeError on everything else. -/
def pySliceable : JVal → Bool
  | .str _ => true
  | .arr _ => true
  | _ => false

/-- First-match association lookup, the view of a Python dict with unique
keys as a list of pairs. -/
def lookupJ (fs : List (String × JVal)) (k : String) : Option JVal :=
  (fs.find? (fun p => decide (p.1 = k))).map (fun p => p.2)

/-- Environment of external-library behaviour: the full (uncapped)
single-shot zstd decompression of a byte sequence, the streaming
decompression (ZstdDecompressor.stream_reader followed by read), and JSON
parsing (json.loads). An error value stands for the ZstdError respectively
JSONDecodeError the library raises on that input. -/
structure Env : Type where
  singleShot : Bytes → Except Unit Bytes
  streamRead : Bytes → Except Unit Bytes
  loads : Bytes → Except Unit JVal

/-- Decompressed-size cap used by both scripts: 10*1024*1024 bytes. -/
def MAX_DECOMPRESSED : Nat := 10 * 1024 * 1024

/-- Model of ZstdDecompressor.decompress(content, max_output_size=10 MiB):
the zstandard library raises ZstdError both on malformed input and when
the decompressed output would exceed max_output_size. -/
def decompressCapped (env : Env) (content : Bytes) : Except Unit Bytes :=
  match env.singleShot content with
  | .error e => .error e
  | .ok d => if d.length ≤ MAX_DECOMPRESSED then .ok d else .error ()

/-- Outcome of the single requests.post call: an HTTP response with status
and raw body, a timeout, or another connection-level RequestException. -/
inductive HttpOutcome : Type where
  | response : Nat → Bytes → HttpOutcome
  | timeout : HttpOutcome
  | requestError : HttpOutcome

/-- Result of one credential-fetch invocation. The error constructors name
the code path that produced the failure return: non-200 status (with the
status code the diagnostic records), connection failure or timeout, both
decompression attempts failed, JSON parse failure, missing key field, and
the residual TypeError paths swallowed by the generic exception handler. -/
inductive FetchResult : Type where
  | ok : JVal → FetchResult
  | errStatus : Nat → FetchResult
  | errConn : FetchResult
  | errZstd : FetchResult
  | errJson : FetchResult
  | errNoKey : FetchResult
  | errOther : FetchResult

/-- Classification of a failure into the four error kinds of the spec:
TransportError (non-200 status, connection failure, timeout),
DecompressionError, MalformedResponseError, ProtocolError (the server
answered with well-formed JSON holding no credential; the TypeError paths
on non-dict JSON fall under the same kind). -/
inductive ErrKind : Type where
  | transport : ErrKind
  | decompression : ErrKind
  | malformed : ErrKind
  | protocol : ErrKind

/-- Error kind of a fetch result, none on success. -/
def kindOf : FetchResult → Option ErrKind
  | .ok _ => none
  | .errStatus _ => some .transport
  | .errConn => some .transport
  | .errZstd => some .decompression
  | .errJson => some .malformed
  | .errNoKey => some .protocol
  | .errOther => some .protocol

/-- Fixed key-issuance endpoint (ANKIWEB_HOST_KEY_URL in both scripts). -/
def ANKIWEB_HOST_KEY_URL : String := "https://sync21.ankiweb.net/sync/hostKey"

/-- Sync URL constant written into the profile record (setup_anki.py). -/
def ANKIWEB_SYNC_URL : String := "https://sync21.ankiweb.net/"

/-- Protocol header object built by both scripts: version 11, empty sync
key, fixed client identifier, empty session key, in insertion order. -/
def syncHeaderVal : JVal :=
  JVal.obj [("v", JVal.num 11), ("k", JVal.str ""), ("c", JVal.str "anki,24.11.3 (dev),linux"), ("s", JVal.str "")]

/-- Outbound HTTP POST request as both scripts assemble it. -/
structure Request : Type where
  url : String
  body : Bytes
  headers : List (String × String)
  timeoutSecs : Nat

/-- Request construction, identical in get_anki_synckey.py (lines 60-95)
and setup_anki.py (lines 90-119): the body is the zstd compression
(compress is the external compressor, a parameter) of the UTF-8 encoded
JSON payload holding exactly the fields u and p, the anki-sync header is
the JSON dump of the protocol header object, content type is
application/octet-stream, the user agent is the fixed token Anki, and the
timeout is 30 seconds. -/
def buildRequest (compress : Bytes → Bytes) (username password : String) : Request :=
  { url := ANKIWEB_HOST_KEY_URL
    body := compress (utf8Encode (jsonDumps (JVal.obj [("u", JVal.str username), ("p", JVal.str password)])))
    headers := [("anki-sync", jsonDumps syncHeaderVal), ("Content-Type", "application/octet-stream"), ("User-Agent", "Anki")]
    timeoutSecs := 30 }

/-- Key extraction of setup_anki.py get_sync_key_from_server (lines
134-139 and 148-153): if "key" in data return data["key"] else report no
key; TypeError from the membership test or the subscript on non-dict JSON
is swallowed by the generic exception handler. -/
def handleParsed (data : JVal) : FetchResult :=
  match pyContains data "key" with
  | .error _ => .errOther
  | .ok false => .errNoKey
  | .ok true =>
    match pyIndex data "key" with
    | .error _ => .errOther
    | .ok v => .ok v

/-- Key extraction of get_anki_synckey.py get_sync_key (lines 120-126 and
136-142). It differs from the setup variant in one point: the debug
message interpolates sync_key[:4] and sync_key[-4:] before returning, so a
value that is not sliceable (not a str or list) raises TypeError, which
the generic exception handler turns into a failure return. -/
def handleParsedStd (data : JVal) : FetchResult :=
  match pyContains data "key" with
  | .error _ => .errOther
  | .ok false => .errNoKey
  | .ok true =>
    match pyIndex data "key" with
    | .error _ => .errOther
    | .ok v => if pySliceable v then .ok v else .errOther

/-- Response processing of setup_anki.py get_sync_key_from_server (lines
113-160): connection failures give a failure return; a non-200 status
gives a failure return recording the status without touching the body;
otherwise the body is decompressed single-shot with the 10 MiB cap, and on
ZstdError (malformed or over the cap) decompressed again with the
streaming reader (no cap); the result is parsed as JSON and the key
extracted. Failures inside the fallback are swallowed by the outer generic
exception handler. -/
def processResponse (env : Env) (outcome : HttpOutcome) : FetchResult :=
  match outcome with
  | .timeout => .errConn
  | .requestError => .errConn
  | .response status content =>
    if status ≠ 200 then .errStatus status
    else
      match decompressCapped env content with
      | .ok d =>
        match env.loads d with
        | .error _ => .errJson
        | .ok data => handleParsed data
      | .error _ =>
        match env.streamRead content with
        | .error _ => .errZstd
        | .ok d =>
          match env.loads d with
          | .error _ => .errJson
          | .ok data => handleParsed data

/-- Response processing of get_anki_synckey.py get_sync_key (lines
89-155), identical to the setup variant except for the debug-message
slicing inside key extraction (and a dedicated JSONDecodeError handler
that produces the same failure return as the generic one). -/
def processResponseStd (env : Env) (outcome : HttpOutcome) : FetchResult :=
  match outcome with
  | .timeout => .errConn
  | .requestError => .errConn
  | .response status content =>
    if status ≠ 200 then .errStatus status
    else
      match decompressCapped env content with
      | .ok d =>
        match env.loads d with
        | .error _ => .errJson
        | .ok data => handleParsedStd data
      | .error _ =>
        match env.streamRead content with
        | .error _ => .errZstd
        | .ok d =>
          match env.loads d with
          | .error _ => .errJson
          | .ok data => handleParsedStd data

/-- Single assignment d[k] = v on a Python dict viewed as a list of pairs
in insertion order: an existing binding is overwritten in place, a new key
is appended at the end. -/
def dictSet : List (String × JVal) → String → JVal → List (String × JVal)
  | [], k, v => [(k, v)]
  | p :: rest, k, v => if p.1 = k then (k, v) :: rest else p :: dictSet rest k v

/-- Python dict.update(other): every binding of other is assigned into d,
in order. -/
def dictUpdate (d other : List (String × JVal)) : List (String × JVal) :=
  other.foldl (fun acc p => dictSet acc p.1 p.2) d

/-- Last binding of a key in a pair list, matching the value a Python dict
built from these assignments would hold for k. -/
def lookupLast (fs : List (String × JVal)) (k : String) : Option JVal :=
  match fs with
  | [] => none
  | p :: rest =>
    match lookupLast rest k with
    | some v => some v
    | none => if p.1 = k then some p.2 else none

/-- Record stored under the name _global in prefs21.db (setup_anki.py
lines 220-229). -/
structure GlobalRec : Type where
  last_loaded_profile : String
  defaultLang : String
  firstRun : Bool

/-- Record stored under the profile name user in prefs21.db (setup_anki.py
lines 234-247). The sync key field keeps whatever value the fetch
returned, as the code stores it unvalidated. -/
structure ProfileRec : Type where
  syncUser : String
  syncKey : JVal
  currentSyncUrl : String
  hostNum : Nat
  autoSync : Bool
  syncMedia : Bool

/-- Observable state the setup operations touch: existence of prefs21.db
and its two records, existence of the add-on folder, the parsed content of
config.json (none: file absent; some none: file present but not valid
JSON), and the list of outbound POST requests issued so far. -/
structure World : Type where
  prefsDbExists : Bool
  dbProfiles : Option (GlobalRec × ProfileRec)
  addonDirExists : Bool
  configFile : Option (Option (List (String × JVal)))
  netPosts : List Request

/-- Effectful credential fetch (setup_anki.py get_sync_key_from_server,
lines 79-160): builds the request, performs the single requests.post call
-- the response is drawn from the oracle at the index counting the posts
issued so far -- and processes the response. The world changes only by
recording that one post. -/
def get_sync_key_eff (compress : Bytes → Bytes) (env : Env) (oracle : Nat → HttpOutcome) (username password : String) (w : World) : FetchResult × World :=
  (processResponse env (oracle w.netPosts.length),
   { w with netPosts := w.netPosts ++ [buildRequest compress username password] })

/-- Effectful credential fetch of the standalone script
(get_anki_synckey.py get_sync_key, lines 40-155). -/
def get_sync_key_eff_std (compress : Bytes → Bytes) (env : Env) (oracle : Nat → HttpOutcome) (username password : String) (w : World) : FetchResult × World :=
  (processResponseStd env (oracle w.netPosts.length),
   { w with netPosts := w.netPosts ++ [buildRequest compress username password] })

/-- Truthiness of the Optional[str] password argument. -/
def pwTruthy : Option String → Bool
  | none => false
  | some s => decide (s ≠ "")

/-- Database creation tail of create_profile (setup_anki.py lines
201-258): marks prefs21.db as existing and stores the _global record (the
default profile name user, the language from ANKI_LANG, firstRun False)
and the user profile record; with no_sync the stored syncUser and syncKey
are emptied but autoSync and syncMedia still reflect bool(final_sync_key)
exactly as in the source. -/
def writeProfileDb (lang sync_user : String) (finalKey : JVal) (no_sync : Bool) (w : World) : Bool × World :=
  (true,
   { w with
     prefsDbExists := true
     dbProfiles := some
       ({ last_loaded_profile := "user", defaultLang := lang, firstRun := false },
        { syncUser := if no_sync then "" else sync_user
          syncKey := if no_sync then JVal.str "" else finalKey
          currentSyncUrl := ANKIWEB_SYNC_URL
          hostNum := 21
          autoSync := pyTruthy finalKey
          syncMedia := pyTruthy finalKey }) })

/-- Model of AnkiSetup.create_profile (setup_anki.py lines 162-258): if
prefs21.db already exists return True at once; otherwise the final sync
key starts as the sync_key argument, and when that is empty, a password
was given and sync is enabled, the key is fetched from the server (failing
when sync_user is empty or the fetched value is falsy); finally the
database is written. -/
def create_profile (compress : Bytes → Bytes) (env : Env) (oracle : Nat → HttpOutcome) (lang : String) (sync_user sync_key : String) (sync_password : Option String) (no_sync : Bool) (w : World) : Bool × World :=
  if w.prefsDbExists then (true, w)
  else
    if sync_key == "" && pwTruthy sync_password && !no_sync then
      if sync_user == "" then (false, w)
      else
        match get_sync_key_eff compress env oracle sync_user (sync_password.getD "") w with
        | (res, w1) =>
          match res with
          | .ok v => if pyTruthy v then writeProfileDb lang sync_user v no_sync w1 else (false, w1)
          | _ => (false, w1)
    else writeProfileDb lang sync_user (JVal.str sync_key) no_sync w

/-- Built-in AnkiConnect default configuration of configure_addon
(setup_anki.py lines 424-432), in insertion order. -/
def defaultConfig : List (String × JVal) :=
  [("apiKey", JVal.null),
   ("apiLogPath", JVal.null),
   ("ignoreOriginList", JVal.arr []),
   ("webBindAddress", JVal.str "0.0.0.0"),
   ("webBindPort", JVal.num 8765),
   ("webCorsOrigin", JVal.str "http://localhost"),
   ("webCorsOriginList", JVal.arr [JVal.str "*"])]

/-- Model of AnkiSetup.configure_addon (setup_anki.py lines 395-449): fail
when the add-on folder is absent; read the existing config.json (an empty
dict when the file is absent or not valid JSON); update it with the
defaults, then with the caller-supplied ankiconnect_config; write the
result back. -/
def configure_addon (ankiconnect_config : List (String × JVal)) (w : World) : Bool × World :=
  if !w.addonDirExists then (false, w)
  else
    let config0 := match w.configFile with
      | some (some fields) => fields
      | some none => []
      | none => []
    let config1 := dictUpdate config0 defaultConfig
    let config2 := dictUpdate config1 ankiconnect_config
    (true, { w with configFile := some (some config2) })

/-- Model of AnkiSetup.setup_all (setup_anki.py lines 453-492): return
True at once when prefs21.db exists, otherwise run create_profile, the
add-on installation (an opaque world transformer, as its internals are
download and zip extraction by external libraries) and configure_addon in
order, stopping at the first failure. -/
def setup_all (compress : Bytes → Bytes) (env : Env) (oracle : Nat → HttpOutcome) (lang : String) (installAddon : World → Bool × World) (ankiconnect_config : List (String × JVal)) (sync_user sync_key : String) (sync_password : Option String) (no_sync : Bool) (w : World) : Bool × World :=
  if w.prefsDbExists then (true, w)
  else
    match create_profile compress env oracle lang sync_user sync_key sync_password no_sync w with
    | (false, w1) => (false, w1)
    | (true, w1) =>
      match installAddon w1 with
      | (false, w2) => (false, w2)
      | (true, w2) =>
        match configure_addon ankiconnect_config w2 with
        | (false, w3) => (false, w3)
        | (true, w3) => (true, w3)

/-- Environment whose three library functions reject every input; used to
instantiate theorems at concrete inputs. -/
def trivEnv : Env :=
  { singleShot := fun _ => Except.error ()
    streamRead := fun _ => Except.error ()
    loads := fun _ => Except.error () }

/-- Reduction of response processing at a 200 status: the status check
passes and the body is handed to the capped decompression with its
streaming fallback. -/
theorem processResponse_200 (env : Env) (content : Bytes) :
    processResponse env (HttpOutcome.response 200 content)
      = match decompressCapped env content with
        | Except.ok d =>
          match env.loads d with
          | Except.error _ => FetchResult.errJson
          | Except.ok data => handleParsed data
        | Except.error _ =>
          match env.streamRead content with
          | Except.error _ => FetchResult.errZstd
          | Except.ok d =>
            match env.loads d with
            | Except.error _ => FetchResult.errJson
            | Except.ok data => handleParsed data := rfl

/-- Reduction of the standalone response processing at a 200 status. -/
theorem processResponseStd_200 (env : Env) (content : Bytes) :
    processResponseStd env (HttpOutcome.response 200 content)
      = match decompressCapped env content with
        | Except.ok d =>
          match env.loads d with
          | Except.error _ => FetchResult.errJson
          | Except.ok data => handleParsedStd data
        | Except.error _ =>
          match env.streamRead content with
          | Except.error _ => FetchResult.errZstd
          | Except.ok d =>
            match env.loads d with
            | Except.error _ => FetchResult.errJson
            | Except.ok data => handleParsedStd data := rfl

/-- Key extraction on a parsed JSON object is the association lookup of
the field key: the found value on presence, the no-key failure on
absence. -/
theorem handleParsed_obj (fs : List (String × JVal)) :
    handleParsed (JVal.obj fs)
      = match lookupJ fs "key" with
        | some v => FetchResult.ok v
        | none => FetchResult.errNoKey := by
  unfold lookupJ
  rcases hf : fs.find? (fun p => decide (p.1 = "key")) with _ | p
  · have hany : fs.any (fun p => decide (p.1 = "key")) = false := by
      rw [List.any_eq_false]
      intro x hx
      have hx2 := List.find?_eq_none.mp hf x hx
      simpa using hx2
    simp [handleParsed, pyContains, pyIndex, hany, hf]
  · have hmem : p ∈ fs := List.mem_of_find?_eq_some hf
    have hpred := List.find?_some hf
    have hany : fs.any (fun p => decide (p.1 = "key")) = true := by
      rw [List.any_eq_true]
      exact ⟨p, hmem, hpred⟩
    simp [handleParsed, pyContains, pyIndex, hany, hf]

/-- Key extraction of the standalone script on a parsed JSON object: the
association lookup of the field key, with the extra sliceability demand of
the debug interpolation on the found value. -/
theorem handleParsedStd_obj (fs : List (String × JVal)) :
    handleParsedStd (JVal.obj fs)
      = match lookupJ fs "key" with
        | some v => if pySliceable v then FetchResult.ok v else FetchResult.errOther
        | none => FetchResult.errNoKey := by
  unfold lookupJ
  rcases hf : fs.find? (fun p => decide (p.1 = "key")) with _ | p
  · have hany : fs.any (fun p => decide (p.1 = "key")) = false := by
      rw [List.any_eq_false]
      intro x hx
      have hx2 := List.find?_eq_none.mp hf x hx
      simpa using hx2
    simp [handleParsedStd, pyContains, pyIndex, hany, hf]
  · have hmem : p ∈ fs := List.mem_of_find?_eq_some hf
    have hpred := List.find?_some hf
    have hany : fs.any (fun p => decide (p.1 = "key")) = true := by
      rw [List.any_eq_true]
      exact ⟨p, hmem, hpred⟩
    simp [handleParsedStd, pyContains, pyIndex, hany, hf]

/-- C2: for every pair of input strings and every server response, one
invocation of the credential fetch produces exactly one outcome -- either
a returned value or exactly one of the four error kinds -- never both and
never neither; the model of either function is total, mirroring that every
exception path in the source is caught and turned into a failure return. -/
theorem c2_exactly_one_outcome (env : Env) (outcome : HttpOutcome) :
    Xor' (∃ v, processResponse env outcome = FetchResult.ok v)
         (∃ k, kindOf (processResponse env outcome) = some k)
    ∧ Xor' (∃ v, processResponseStd env outcome = FetchResult.ok v)
           (∃ k, kindOf (processResponseStd env outcome) = some k) := by
  constructor
  · cases h : processResponse env outcome <;> simp [Xor', kindOf]
  · cases h : processResponseStd env outcome <;> simp [Xor', kindOf]

/-- C3: an HTTP 200 response whose body decompresses single-shot (within
the cap) to bytes that parse to the JSON object holding the key
ABCD1234EFGH5678 makes both fetch functions return exactly that string. -/
theorem c3_roundtrip (env : Env) (body d : Bytes)
    (h1 : env.singleShot body = Except.ok d)
    (h2 : d.length ≤ MAX_DECOMPRESSED)
    (h3 : env.loads d = Except.ok (JVal.obj [("key", JVal.str "ABCD1234EFGH5678")])) :
    processResponse env (HttpOutcome.response 200 body)
      = FetchResult.ok (JVal.str "ABCD1234EFGH5678")
    ∧ processResponseStd env (HttpOutcome.response 200 body)
      = FetchResult.ok (JVal.str "ABCD1234EFGH5678") := by
  constructor <;>
    simp [processResponse, processResponseStd, decompressCapped, h1, h2, h3,
      handleParsed, handleParsedStd, pyContains, pyIndex, pySliceable, List.find?]

/-- Environment used to instantiate the round-trip theorem: single-shot
decompression succeeds and parsing yields the keyed object. -/
def envRound : Env :=
  { singleShot := fun _ => Except.ok [1]
    streamRead := fun _ => Except.error ()
    loads := fun _ => Except.ok (JVal.obj [("key", JVal.str "ABCD1234EFGH5678")]) }

/-- C3 witness at a concrete environment and body. -/
theorem c3_roundtrip_witness :
    envRound.singleShot [0] = Except.ok [1]
    ∧ ([1] : Bytes).length ≤ MAX_DECOMPRESSED
    ∧ processResponse envRound (HttpOutcome.response 200 [0])
        = FetchResult.ok (JVal.str "ABCD1234EFGH5678") :=
  ⟨rfl, by decide, (c3_roundtrip envRound [0] [1] rfl (by decide) rfl).1⟩

/-- C5: a non-200 HTTP status makes both fetch functions fail recording
that status, for every environment and every body -- in particular the
body is never decompressed or parsed, as the result does not depend on the
library environment or the body at all; the failure is of the transport
kind. -/
theorem c5_non_200_transport (env : Env) (status : Nat) (content : Bytes)
    (h : status ≠ 200) :
    processResponse env (HttpOutcome.response status content) = FetchResult.errStatus status
    ∧ processResponseStd env (HttpOutcome.response status content) = FetchResult.errStatus status
    ∧ kindOf (FetchResult.errStatus status) = some ErrKind.transport := by
  refine ⟨?_, ?_, rfl⟩ <;> simp [processResponse, processResponseStd, h]

/-- C5 witness at status 403. -/
theorem c5_non_200_transport_witness :
    (403 : Nat) ≠ 200
    ∧ processResponse trivEnv (HttpOutcome.response 403 []) = FetchResult.errStatus 403 :=
  ⟨by decide, (c5_non_200_transport trivEnv 403 [] (by decide)).1⟩

/-- C6: a 200 body that raises a format error under single-shot
decompression but decompresses under the streaming reader to JSON holding
a string credential under key still yields that credential in both fetch
functions; and the streaming path is consulted only after single-shot
decompression fails, as whenever single-shot decompression succeeds within
the cap the result is unchanged under every replacement of the streaming
function. -/
theorem c6_streaming_fallback (env : Env) (body d : Bytes)
    (fs : List (String × JVal)) (s : String)
    (h1 : env.singleShot body = Except.error ())
    (h2 : env.streamRead body = Except.ok d)
    (h3 : env.loads d = Except.ok (JVal.obj fs))
    (h4 : lookupJ fs "key" = some (JVal.str s)) :
    (processResponse env (HttpOutcome.response 200 body) = FetchResult.ok (JVal.str s)
     ∧ processResponseStd env (HttpOutcome.response 200 body) = FetchResult.ok (JVal.str s))
    ∧ ∀ (env2 : Env) (body2 d2 : Bytes) (f : Bytes → Except Unit Bytes),
        env2.singleShot body2 = Except.ok d2 → d2.length ≤ MAX_DECOMPRESSED →
        processResponse { env2 with streamRead := f } (HttpOutcome.response 200 body2)
          = processResponse env2 (HttpOutcome.response 200 body2) := by
  constructor
  · constructor
    · simp [processResponse, decompressCapped, h1, h2, h3, handleParsed_obj, h4]
    · simp [processResponseStd, decompressCapped, h1, h2, h3, handleParsedStd_obj, h4, pySliceable]
  · intro env2 body2 d2 f g1 g2
    simp [processResponse, decompressCapped, g1, g2]

/-- Environment used to instantiate the fallback theorem: single-shot
decompression rejects, the streaming reader succeeds, parsing yields the
keyed object. -/
def envStream : Env :=
  { singleShot := fun _ => Except.error ()
    streamRead := fun _ => Except.ok [2]
    loads := fun _ => Except.ok (JVal.obj [("key", JVal.str "ABCD1234EFGH5678")]) }

/-- C6 witness at a concrete environment and body. -/
theorem c6_streaming_fallback_witness :
    envStream.singleShot [0] = Except.error ()
    ∧ envStream.streamRead [0] = Except.ok [2]
    ∧ processResponse envStream (HttpOutcome.response 200 [0])
        = FetchResult.ok (JVal.str "ABCD1234EFGH5678") :=
  ⟨rfl, rfl,
    (c6_streaming_fallback envStream [0] [2] [("key", JVal.str "ABCD1234EFGH5678")]
      "ABCD1234EFGH5678" rfl rfl rfl rfl).1.1⟩

/-- C7: for every pair of input strings the outbound request of both
scripts has the fixed endpoint URL, a body equal to the zstd compression
of the UTF-8 JSON object with exactly the fields u and p, an anki-sync
header equal to the JSON string with exactly the fields v=11, empty k, the
fixed client identifier c and empty s, the opaque binary content type, the
fixed user agent, and the 30 second timeout. -/
theorem c7_request_construction (compress : Bytes → Bytes) (username password : String) :
    (buildRequest compress username password).url = ANKIWEB_HOST_KEY_URL
    ∧ (buildRequest compress username password).body
        = compress (utf8Encode (jsonDumps (JVal.obj [("u", JVal.str username), ("p", JVal.str password)])))
    ∧ (buildRequest compress username password).headers
        = [("anki-sync", "\x7b\"v\": 11, \"k\": \"\", \"c\": \"anki,24.11.3 (dev),linux\", \"s\": \"\"\x7d"),
           ("Content-Type", "application/octet-stream"),
           ("User-Agent", "Anki")]
    ∧ (buildRequest compress username password).timeoutSecs = 30 := by
  refine ⟨rfl, rfl, ?_, rfl⟩
  show [("anki-sync", jsonDumps syncHeaderVal), ("Content-Type", "application/octet-stream"), ("User-Agent", "Anki")] = _
  decide

/-- C8: one invocation of the effectful credential fetch of either script
appends exactly one POST request to the world, leaves the profile
database, the add-on folder and the configuration file untouched, and its
outcome is decided by the response to that single call -- there is no
retry. -/
theorem c8_single_call_no_fs (compress : Bytes → Bytes) (env : Env)
    (oracle : Nat → HttpOutcome) (username password : String) (w : World) :
    ((get_sync_key_eff compress env oracle username password w).2.netPosts
        = w.netPosts ++ [buildRequest compress username password]
     ∧ (get_sync_key_eff compress env oracle username password w).2.prefsDbExists = w.prefsDbExists
     ∧ (get_sync_key_eff compress env oracle username password w).2.dbProfiles = w.dbProfiles
     ∧ (get_sync_key_eff compress env oracle username password w).2.addonDirExists = w.addonDirExists
     ∧ (get_sync_key_eff compress env oracle username password w).2.configFile = w.configFile
     ∧ (get_sync_key_eff compress env oracle username password w).1
         = processResponse env (oracle w.netPosts.length))
    ∧ ((get_sync_key_eff_std compress env oracle username password w).2.netPosts
        = w.netPosts ++ [buildRequest compress username password]
     ∧ (get_sync_key_eff_std compress env oracle username password w).2.prefsDbExists = w.prefsDbExists
     ∧ (get_sync_key_eff_std compress env oracle username password w).2.dbProfiles = w.dbProfiles
     ∧ (get_sync_key_eff_std compress env oracle username password w).2.addonDirExists = w.addonDirExists
     ∧ (get_sync_key_eff_std compress env oracle username password w).2.configFile = w.configFile
     ∧ (get_sync_key_eff_std compress env oracle username password w).1
         = processResponseStd env (oracle w.netPosts.length)) :=
  ⟨⟨rfl, rfl, rfl, rfl, rfl, rfl⟩, ⟨rfl, rfl, rfl, rfl, rfl, rfl⟩⟩

/-- Lookup on the empty dict. -/
theorem lookupJ_nil (k : String) : lookupJ [] k = none := rfl

/-- Lookup steps through a cons cell. -/
theorem lookupJ_cons (p : String × JVal) (rest : List (String × JVal)) (k : String) :
    lookupJ (p :: rest) k = if p.1 = k then some p.2 else lookupJ rest k := by
  by_cases h : p.1 = k
  · rw [if_pos h]
    unfold lookupJ
    rw [List.find?_cons_of_pos _ (by simp [h])]
    rfl
  · rw [if_neg h]
    unfold lookupJ
    rw [List.find?_cons_of_neg _ (by simp [h])]

/-- Lookup after a single dict assignment: the assigned key reads the new
value, every other key is unchanged. -/
theorem lookupJ_dictSet (d : List (String × JVal)) (k : String) (v : JVal) (kq : String) :
    lookupJ (dictSet d k v) kq = if kq = k then some v else lookupJ d kq := by
  induction d with
  | nil =>
    rcases eq_or_ne kq k with h | h
    · subst h
      simp [dictSet, lookupJ_cons, lookupJ_nil]
    · simp [dictSet, lookupJ_cons, lookupJ_nil, h, Ne.symm h]
  | cons p rest ih =>
    rcases eq_or_ne p.1 k with hp | hp
    · have hd : dictSet (p :: rest) k v = (k, v) :: rest := by simp [dictSet, hp]
      rcases eq_or_ne kq k with h | h
      · subst h
        simp [hd, lookupJ_cons, hp]
      · have hpq : p.1 ≠ kq := by rw [hp]; exact Ne.symm h
        simp [hd, lookupJ_cons, lookupJ_cons, h, Ne.symm h, hpq, hp]
    · have hd : dictSet (p :: rest) k v = p :: dictSet rest k v := by simp [dictSet, hp]
      rw [hd, lookupJ_cons, lookupJ_cons, ih]
      rcases eq_or_ne p.1 kq with hq | hq
      · have hk : kq ≠ k := by rw [← hq]; exact hp
        simp [hq, hk]
      · simp [hq]

/-- Lookup after dict.update: the last binding of the updating dict wins,
keys it does not bind fall through to the updated dict. -/
theorem lookupJ_dictUpdate (o d : List (String × JVal)) (kq : String) :
    lookupJ (dictUpdate d o) kq
      = match lookupLast o kq with
        | some v => some v
        | none => lookupJ d kq := by
  induction o generalizing d with
  | nil => rfl
  | cons p rest ih =>
    have hstep : dictUpdate d (p :: rest) = dictUpdate (dictSet d p.1 p.2) rest := rfl
    rw [hstep, ih]
    rcases h : lookupLast rest kq with _ | v
    · rw [lookupJ_dictSet]
      simp only [lookupLast, h]
      rcases eq_or_ne kq p.1 with hq | hq
      · subst hq
        simp
      · simp [hq, Ne.symm hq]
    · simp [lookupLast, h]

/-- Lookup of a key among the dict keys is some value. -/
theorem lookupJ_isSome_of_mem (fs : List (String × JVal)) (k : String)
    (h : k ∈ fs.map Prod.fst) : (lookupJ fs k).isSome = true := by
  induction fs with
  | nil => simp at h
  | cons p rest ih =>
    rw [lookupJ_cons]
    rcases eq_or_ne p.1 k with hp | hp
    · simp [hp]
    · rw [if_neg hp]
      apply ih
      simp only [List.map_cons, List.mem_cons] at h
      rcases h with h | h
      · exact absurd h.symm hp
      · exact h

/-- Lookup of a key outside the dict keys is none. -/
theorem lookupJ_eq_none_of_not_mem (fs : List (String × JVal)) (k : String)
    (h : k ∉ fs.map Prod.fst) : lookupJ fs k = none := by
  induction fs with
  | nil => rfl
  | cons p rest ih =>
    simp only [List.map_cons, List.mem_cons, not_or] at h
    rw [lookupJ_cons, if_neg (Ne.symm h.1)]
    exact ih h.2

/-- Last-binding lookup and first-match lookup agree on the default
configuration, whose seven keys are distinct. -/
theorem lookupLast_defaultConfig (k : String) :
    lookupLast defaultConfig k = lookupJ defaultConfig k := by
  by_cases h1 : k = "apiKey"
  · subst h1; rfl
  by_cases h2 : k = "apiLogPath"
  · subst h2; rfl
  by_cases h3 : k = "ignoreOriginList"
  · subst h3; rfl
  by_cases h4 : k = "webBindAddress"
  · subst h4; rfl
  by_cases h5 : k = "webBindPort"
  · subst h5; rfl
  by_cases h6 : k = "webCorsOrigin"
  · subst h6; rfl
  by_cases h7 : k = "webCorsOriginList"
  · subst h7; rfl
  simp [defaultConfig, lookupLast, lookupJ_cons, lookupJ_nil,
    Ne.symm h1, Ne.symm h2, Ne.symm h3, Ne.symm h4, Ne.symm h5, Ne.symm h6, Ne.symm h7]

/-- C10: with a pre-existing config.json, configure_addon writes back the
existing object updated first with the seven built-in defaults and then
with the caller-supplied overrides; hence a default-set key not present in
the caller-supplied configuration reads its built-in default whatever the
existing file held, a key bound by the caller-supplied configuration reads
that binding, and a key outside both keeps its value from the existing
file. -/
theorem c10_configure_overwrites (w : World) (ankiConf existing : List (String × JVal)) (k : String)
    (h1 : w.addonDirExists = true)
    (h2 : w.configFile = some (some existing)) :
    configure_addon ankiConf w
      = (true, { w with configFile := some (some (dictUpdate (dictUpdate existing defaultConfig) ankiConf)) })
    ∧ (lookupLast ankiConf k = none → k ∈ defaultConfig.map Prod.fst →
        lookupJ (dictUpdate (dictUpdate existing defaultConfig) ankiConf) k = lookupJ defaultConfig k)
    ∧ (∀ v, lookupLast ankiConf k = some v →
        lookupJ (dictUpdate (dictUpdate existing defaultConfig) ankiConf) k = some v)
    ∧ (lookupLast ankiConf k = none → k ∉ defaultConfig.map Prod.fst →
        lookupJ (dictUpdate (dictUpdate existing defaultConfig) ankiConf) k = lookupJ existing k) := by
  refine ⟨?_, ?_, ?_, ?_⟩
  · simp [configure_addon, h1, h2]
  · intro ha hd
    have e1 : lookupJ (dictUpdate (dictUpdate existing defaultConfig) ankiConf) k
        = lookupJ (dictUpdate existing defaultConfig) k := by
      rw [lookupJ_dictUpdate, ha]
    rw [e1, lookupJ_dictUpdate, lookupLast_defaultConfig]
    rcases hv : lookupJ defaultConfig k with _ | v
    · exfalso
      have hs := lookupJ_isSome_of_mem defaultConfig k hd
      rw [hv] at hs
      simp at hs
    · rfl
  · intro v hv
    rw [lookupJ_dictUpdate, hv]
  · intro ha hd
    rw [lookupJ_dictUpdate, ha, lookupJ_dictUpdate, lookupLast_defaultConfig,
      lookupJ_eq_none_of_not_mem defaultConfig k hd]

/-- World used to instantiate the configuration theorem: the add-on is
installed and config.json holds a customized port plus a foreign key. -/
def w10 : World :=
  { prefsDbExists := false
    dbProfiles := none
    addonDirExists := true
    configFile := some (some [("webBindPort", JVal.num 1234), ("custom", JVal.str "keepme")])
    netPosts := [] }

/-- C10 witness: a previously customized webBindPort not re-supplied by
the caller is overwritten back to the built-in default. -/
theorem c10_configure_overwrites_witness :
    w10.addonDirExists = true
    ∧ lookupLast ([] : List (String × JVal)) "webBindPort" = none
    ∧ lookupJ (dictUpdate (dictUpdate [("webBindPort", JVal.num 1234), ("custom", JVal.str "keepme")] defaultConfig) []) "webBindPort"
        = lookupJ defaultConfig "webBindPort" :=
  ⟨rfl, rfl,
    (c10_configure_overwrites w10 [] [("webBindPort", JVal.num 1234), ("custom", JVal.str "keepme")]
      "webBindPort" rfl rfl).2.1 rfl (by decide)⟩

/-- C9: when prefs21.db already exists, create_profile and setup_all both
return success at once with the world unchanged -- no network call is
recorded, no database record or file is written -- so running the setup
again is idempotent. -/
theorem c9_exists_short_circuit (compress : Bytes → Bytes) (env : Env) (oracle : Nat → HttpOutcome)
    (lang sync_user sync_key : String) (sync_password : Option String) (no_sync : Bool)
    (installAddon : World → Bool × World) (ankiConf : List (String × JVal)) (w : World)
    (h : w.prefsDbExists = true) :
    create_profile compress env oracle lang sync_user sync_key sync_password no_sync w = (true, w)
    ∧ setup_all compress env oracle lang installAddon ankiConf sync_user sync_key sync_password no_sync w = (true, w) := by
  constructor
  · simp [create_profile, h]
  · simp [setup_all, h]

/-- World used to instantiate the idempotency theorem. -/
def w9 : World :=
  { prefsDbExists := true
    dbProfiles := none
    addonDirExists := false
    configFile := none
    netPosts := [] }

/-- C9 witness at a concrete world whose profile database exists. -/
theorem c9_exists_short_circuit_witness :
    w9.prefsDbExists = true
    ∧ create_profile (fun b => b) trivEnv (fun _ => HttpOutcome.timeout) "en_US" "" "" none false w9 = (true, w9) :=
  ⟨rfl,
    (c9_exists_short_circuit (fun b => b) trivEnv (fun _ => HttpOutcome.timeout) "en_US" "" ""
      none false (fun w => (true, w)) [] w9 rfl).1⟩

/-- Concrete oversized decompression result: one byte over the 10 MiB
cap. -/
def bigDecompressed : Bytes := List.replicate (MAX_DECOMPRESSED + 1) 32

/-- Environment realizing a decompression-bomb response: the body is one
zstd frame whose content is one byte over the cap (the single-shot
decompression and the streaming reader both yield it), and that content
parses to a JSON object carrying a credential under key. -/
def envBomb : Env :=
  { singleShot := fun _ => Except.ok bigDecompressed
    streamRead := fun _ => Except.ok bigDecompressed
    loads := fun _ => Except.ok (JVal.obj [("key", JVal.str "ABCD1234EFGH5678")]) }

/-- C1: the claim fails on the code. At an HTTP 200 response whose body
decompresses -- under the single-shot path and under the streaming
fallback alike -- to one byte more than the 10 MiB cap, both fetch
functions return the credential instead of failing: the capped single-shot
call raises ZstdError, the code answers every ZstdError with the uncapped
streaming fallback, and the fallback hands the oversized content straight
to the parser. -/
theorem c1_cap_bypassed :
    bigDecompressed.length > MAX_DECOMPRESSED
    ∧ processResponse envBomb (HttpOutcome.response 200 [0]) = FetchResult.ok (JVal.str "ABCD1234EFGH5678")
    ∧ processResponseStd envBomb (HttpOutcome.response 200 [0]) = FetchResult.ok (JVal.str "ABCD1234EFGH5678")
    ∧ kindOf (processResponse envBomb (HttpOutcome.response 200 [0])) ≠ some ErrKind.decompression := by
  have hlen : bigDecompressed.length = MAX_DECOMPRESSED + 1 := by
    simp [bigDecompressed]
  have hle : ¬(bigDecompressed.length ≤ MAX_DECOMPRESSED) := by
    rw [hlen]; omega
  have hcap : decompressCapped envBomb [0] = Except.error () := by
    show (if bigDecompressed.length ≤ MAX_DECOMPRESSED then Except.ok bigDecompressed else Except.error ())
      = Except.error ()
    rw [if_neg hle]
  have h2 : processResponse envBomb (HttpOutcome.response 200 [0]) = FetchResult.ok (JVal.str "ABCD1234EFGH5678") := by
    rw [processResponse_200, hcap]
    rfl
  have h3 : processResponseStd envBomb (HttpOutcome.response 200 [0]) = FetchResult.ok (JVal.str "ABCD1234EFGH5678") := by
    rw [processResponseStd_200, hcap]
    rfl
  refine ⟨by rw [hlen]; omega, h2, h3, by rw [h2]; simp [kindOf]⟩

/-- Environment whose 200 body decompresses within the cap and parses to
the well-formed JSON object assigning the number 123 to key. -/
def envNumKey : Env :=
  { singleShot := fun _ => Except.ok [1]
    streamRead := fun _ => Except.error ()
    loads := fun _ => Except.ok (JVal.obj [("key", JVal.num 123)]) }

/-- C4 counterexample: on a 200 response parsing to the well-formed JSON
object that assigns the non-string 123 to key, the claim demands a
ProtocolError, but get_sync_key_from_server returns the value 123 -- the
code tests only membership of the field and performs no type or
non-emptiness validation. -/
theorem c4_counterexample :
    processResponse envNumKey (HttpOutcome.response 200 [0]) = FetchResult.ok (JVal.num 123)
    ∧ kindOf (processResponse envNumKey (HttpOutcome.response 200 [0])) ≠ some ErrKind.protocol := by
  have h : processResponse envNumKey (HttpOutcome.response 200 [0]) = FetchResult.ok (JVal.num 123) := by
    rfl
  exact ⟨h, by rw [h]; simp [kindOf]⟩

/-- C4 (amended): on a 200 response that decompresses single-shot within
the cap and parses to a JSON object, get_sync_key_from_server returns the
value stored under key whenever the field is present -- whatever that
value is, with no non-emptiness or type validation (the standalone
get_sync_key additionally requires the value to survive the debug
interpolation slicing, which every string value does) -- and fails with
the ProtocolError kind exactly when the field is absent. -/
theorem c4_amended (env : Env) (body d : Bytes) (fs : List (String × JVal))
    (h1 : env.singleShot body = Except.ok d)
    (h2 : d.length ≤ MAX_DECOMPRESSED)
    (h3 : env.loads d = Except.ok (JVal.obj fs)) :
    (∀ v, lookupJ fs "key" = some v →
        processResponse env (HttpOutcome.response 200 body) = FetchResult.ok v)
    ∧ (∀ s, lookupJ fs "key" = some (JVal.str s) →
        processResponseStd env (HttpOutcome.response 200 body) = FetchResult.ok (JVal.str s))
    ∧ (lookupJ fs "key" = none →
        processResponse env (HttpOutcome.response 200 body) = FetchResult.errNoKey
        ∧ processResponseStd env (HttpOutcome.response 200 body) = FetchResult.errNoKey
        ∧ kindOf FetchResult.errNoKey = some ErrKind.protocol) := by
  refine ⟨?_, ?_, ?_⟩
  · intro v hv
    simp [processResponse, decompressCapped, h1, h2, h3, handleParsed_obj, hv]
  · intro s hs
    simp [processResponseStd, decompressCapped, h1, h2, h3, handleParsedStd_obj, hs, pySliceable]
  · intro hn
    refine ⟨?_, ?_, rfl⟩
    · simp [processResponse, decompressCapped, h1, h2, h3, handleParsed_obj, hn]
    · simp [processResponseStd, decompressCapped, h1, h2, h3, handleParsedStd_obj, hn]

/-- C4 witness for the amended statement, at the concrete environment of
the counterexample. -/
theorem c4_amended_witness :
    envNumKey.singleShot [0] = Except.ok [1]
    ∧ processResponse envNumKey (HttpOutcome.response 200 [0]) = FetchResult.ok (JVal.num 123) :=
  ⟨rfl,
    (c4_amended envNumKey [0] [1] [("key", JVal.num 123)] rfl (by decide) rfl).1 (JVal.num 123) rfl⟩

end AnkiAuth

